import Mathlib

/-!
Verification of the pyDevPulse event pipeline (`src/devpulse`).

This file gives a shallow embedding of the parts of the code that the
specification talks about:

* the timeline endpoint `get_trace_timeline` of `src/devpulse/web_ui.py`
  (grouping by `system`, per-group stable sort by timestamp, stage
  start/end/duration/status, stage ordering, `has_errors`,
  `total_duration_ms`);
* the logging handler `DevPulseHandler.emit` of `src/devpulse/logging.py`
  (trace-id gate, severity lowercasing, locals/stacktrace pass-through);
* the websocket module of `src/devpulse/websocket.py` (`_event_queue`,
  `send_event`, the delivery loop `process_event_queue`, and
  `broadcast_event` together with the working copy of the same function in
  `examples/websocket_server.py`);
* the store of `src/devpulse/database.py` (`save_event`, `get_events`).

Python strings are Lean `String`s compared by code point (exactly Python's
string order); Python's stable `sorted(key=...)` is modelled by insertion
sort, which is stable.  `datetime.fromisoformat` composed with
`.replace("Z", "+00:00")` and conversion to epoch milliseconds is kept
abstract as a parameter `parse : String → Option ℚ` (the code only ever
uses parsed timestamps through differences, and the try/except around the
parse is the `Option`).
-/

/-- Lexicographic code-point comparison of char lists; this is exactly how
Python compares two strings with `<=`. -/
def lexLe : List Char → List Char → Bool
  | [], _ => true
  | _ :: _, [] => false
  | a :: as, b :: bs =>
    if a.toNat < b.toNat then true
    else if b.toNat < a.toNat then false
    else lexLe as bs

/-- Python string comparison `a <= b` (code-point lexicographic). -/
def pyStrLe (a b : String) : Bool := lexLe a.data b.data

theorem lexLe_cons_iff {a b : Char} {as bs : List Char} :
    lexLe (a :: as) (b :: bs) = true ↔
      a.toNat < b.toNat ∨ (a.toNat = b.toNat ∧ lexLe as bs = true) := by
  simp only [lexLe]
  split_ifs with h1 h2
  · simp [h1]
  · simp; omega
  · have : a.toNat = b.toNat := by omega
    simp [this, h1, h2]

theorem lexLe_refl : ∀ as, lexLe as as = true := by
  intro as
  induction as with
  | nil => rfl
  | cons a as ih => rw [lexLe_cons_iff]; exact Or.inr ⟨rfl, ih⟩

theorem lexLe_total : ∀ as bs, lexLe as bs = true ∨ lexLe bs as = true := by
  intro as
  induction as with
  | nil => intro bs; left; rfl
  | cons a as ih =>
    intro bs
    cases bs with
    | nil => right; rfl
    | cons b bs =>
      rcases Nat.lt_trichotomy a.toNat b.toNat with h | h | h
      · left; rw [lexLe_cons_iff]; exact Or.inl h
      · rcases ih bs with h' | h'
        · left; rw [lexLe_cons_iff]; exact Or.inr ⟨h, h'⟩
        · right; rw [lexLe_cons_iff]; exact Or.inr ⟨h.symm, h'⟩
      · right; rw [lexLe_cons_iff]; exact Or.inl h

theorem lexLe_trans : ∀ as bs cs, lexLe as bs = true → lexLe bs cs = true →
    lexLe as cs = true := by
  intro as
  induction as with
  | nil => intro bs cs _ _; rfl
  | cons a as ih =>
    intro bs cs h1 h2
    cases bs with
    | nil => simp [lexLe] at h1
    | cons b bs =>
      cases cs with
      | nil => simp [lexLe] at h2
      | cons c cs =>
        rw [lexLe_cons_iff] at h1 h2 ⊢
        rcases h1 with h1 | ⟨h1e, h1r⟩
        · rcases h2 with h2 | ⟨h2e, _⟩
          · exact Or.inl (Nat.lt_trans h1 h2)
          · exact Or.inl (h2e ▸ h1)
        · rcases h2 with h2 | ⟨h2e, h2r⟩
          · exact Or.inl (h1e ▸ h2)
          · exact Or.inr ⟨h1e.trans h2e, ih bs cs h1r h2r⟩

theorem lexLe_antisymm : ∀ as bs, lexLe as bs = true → lexLe bs as = true →
    as = bs := by
  intro as
  induction as with
  | nil =>
    intro bs _ h2
    cases bs with
    | nil => rfl
    | cons b bs => simp [lexLe] at h2
  | cons a as ih =>
    intro bs h1 h2
    cases bs with
    | nil => simp [lexLe] at h1
    | cons b bs =>
      rw [lexLe_cons_iff] at h1 h2
      rcases h1 with h1 | ⟨h1e, h1r⟩
      · rcases h2 with h2 | ⟨h2e, _⟩ <;> omega
      · rcases h2 with h2 | ⟨_, h2r⟩
        · omega
        · have hc : a = b := Char.ext (UInt32.toNat.inj h1e)
          exact hc ▸ congrArg (List.cons a) (ih bs h1r h2r)

theorem pyStrLe_refl (s : String) : pyStrLe s s = true := lexLe_refl s.data

theorem pyStrLe_total (a b : String) :
    pyStrLe a b = true ∨ pyStrLe b a = true := lexLe_total a.data b.data

theorem pyStrLe_trans {a b c : String} (h1 : pyStrLe a b = true)
    (h2 : pyStrLe b c = true) : pyStrLe a c = true :=
  lexLe_trans a.data b.data c.data h1 h2

/-- Python's built-in `sorted(xs, key=k)`: a stable sort, ascending in the
string order of the key.  Insertion sort is stable, and a stable sort is
determined up to equality by the key order, so this is the function the
interpreter computes. -/
def pySortedBy {α : Type} (key : α → String) (l : List α) : List α :=
  List.insertionSort (fun a b => pyStrLe (key a) (key b) = true) l

theorem pySortedBy_perm {α : Type} (key : α → String) (l : List α) :
    (pySortedBy key l).Perm l :=
  List.perm_insertionSort _ l

theorem pySortedBy_sorted {α : Type} (key : α → String) (l : List α) :
    (pySortedBy key l).Pairwise (fun a b => pyStrLe (key a) (key b) = true) := by
  letI tot : IsTotal α (fun a b => pyStrLe (key a) (key b) = true) :=
    ⟨fun a b => pyStrLe_total (key a) (key b)⟩
  letI tr : IsTrans α (fun a b => pyStrLe (key a) (key b) = true) :=
    ⟨fun _ _ _ h1 h2 => pyStrLe_trans h1 h2⟩
  exact List.sorted_insertionSort _ l

/-- Stability of Python's sort: the elements sharing any one key value keep
their original relative order. -/
theorem pySortedBy_filter_key {α : Type} (key : α → String) (l : List α)
    (k : String) (p : α → Bool) (hp : ∀ x, p x = true ↔ key x = k) :
    (pySortedBy key l).filter p = l.filter p := by
  have hpair : (l.filter p).Pairwise (fun a b => pyStrLe (key a) (key b) = true) := by
    apply List.pairwise_of_forall_mem_list
    intro x hx y hy
    have hx' : key x = k := (hp x).mp (List.of_mem_filter hx)
    have hy' : key y = k := (hp y).mp (List.of_mem_filter hy)
    rw [hx', hy']
    exact pyStrLe_refl k
  have hsub : List.Sublist (l.filter p) (pySortedBy key l) :=
    List.sublist_insertionSort hpair (List.filter_sublist l)
  have hsub2 : List.Sublist (l.filter p) ((pySortedBy key l).filter p) := by
    have h1 := List.Sublist.filter p hsub
    rwa [List.filter_filter, (by
      funext a; cases h : p a <;> simp [h] :
        (fun a => p a && p a) = p)] at h1
  have hperm : ((pySortedBy key l).filter p).Perm (l.filter p) :=
    (pySortedBy_perm key l).filter p
  exact ((List.Sublist.eq_of_length hsub2 hperm.length_eq.symm)).symm

/-- Python's `str.lower()` on one character, for the ASCII range used by
logging level names. -/
def pyLowerChar (c : Char) : Char :=
  if 65 ≤ c.toNat ∧ c.toNat ≤ 90 then Char.ofNat (c.toNat + 32) else c

/-- Python's `str.lower()` (ASCII fragment, which covers logging level
names such as "INFO" and "CRITICAL"). -/
def pyLower (s : String) : String := ⟨s.data.map pyLowerChar⟩

/-! ## Timeline endpoint — `get_trace_timeline` (src/devpulse/web_ui.py, lines 357-425)

The events handled here are the payload dictionaries returned by
`get_events(trace_id=...)`; the endpoint reads their `system`, `timestamp`
and `severity` keys (every payload saved by the pipeline carries all
three; the `.get` defaults of the code are the values a payload missing
the key would contribute). -/

/-- An event as seen by the timeline endpoint: the three fields the code
reads from each payload dictionary. -/
structure WebEvent where
  system : String
  timestamp : String
  severity : String
deriving DecidableEq

/-- One entry of the `timeline` list built at web_ui.py:406-414. -/
structure Stage where
  system : String
  startTime : String
  endTime : String
  durationMs : Option ℚ
  status : String
  eventCount : Nat
  events : List WebEvent
deriving DecidableEq

/-- The JSON object returned at web_ui.py:419-425 (minus the echoed
trace_id). -/
structure Timeline where
  stages : List Stage
  totalStages : Nat
  hasErrors : Bool
  totalDurationMs : ℚ
deriving DecidableEq

/-- Either the HTTP 404 raised at web_ui.py:367 or the timeline JSON. -/
inductive TimelineResult
  | notFound (statusCode : Nat)
  | ok (tl : Timeline)
deriving DecidableEq

/-- The keys of the `stages` dictionary built at web_ui.py:370-375, in
dictionary order: Python dictionaries iterate keys in first-insertion
order, so the key list is the distinct `system` values in order of first
appearance. -/
def keysInOrder : List WebEvent → List String
  | [] => []
  | e :: es => e.system :: (keysInOrder es).filter (fun k => k != e.system)

/-- One iteration of the stage loop at web_ui.py:383-414 for the group of
events of one `system` key: sort by timestamp (web_ui.py:378-379), take
first/last, parse both timestamps for the duration (web_ui.py:388-393,
with the try/except as `Option`), compute the status (web_ui.py:396-404).
`parse` stands for `datetime.fromisoformat` after the `replace("Z",
"+00:00")`, in epoch milliseconds. -/
def buildStage (parse : String → Option ℚ) (s : String)
    (group : List WebEvent) : Stage :=
  let sortedEvents := pySortedBy (fun e => e.timestamp) group
  let first := sortedEvents.headD ⟨"", "", ""⟩
  let lastEv := sortedEvents.getLastD ⟨"", "", ""⟩
  let durationMs : Option ℚ :=
    match parse first.timestamp, parse lastEv.timestamp with
    | some a, some b => some (b - a)
    | _, _ => none
  let status :=
    if sortedEvents.any (fun e => e.severity == "error") then "error"
    else if sortedEvents.any (fun e => e.severity == "warning") then "warning"
    else "success"
  { system := s
    startTime := first.timestamp
    endTime := lastEv.timestamp
    durationMs := durationMs
    status := status
    eventCount := sortedEvents.length
    events := sortedEvents }

/-- The unsorted stage list of the loop at web_ui.py:383-414: one stage
per key of the `stages` dictionary, each built from the arrival-order
group of events carrying that `system` value. -/
def stagesFor (parse : String → Option ℚ) (events : List WebEvent) :
    List Stage :=
  (keysInOrder events).map (fun s =>
    buildStage parse s (events.filter (fun e => e.system == s)))

/-- The timeline JSON for a non-empty event list: stages sorted by the raw
`start_time` string (web_ui.py:417), then the aggregates of
web_ui.py:419-425. -/
def assembleTimeline (parse : String → Option ℚ)
    (events : List WebEvent) : Timeline :=
  let timeline := pySortedBy (fun st => st.startTime) (stagesFor parse events)
  { stages := timeline
    totalStages := timeline.length
    hasErrors := timeline.any (fun st => st.status == "error")
    totalDurationMs := (timeline.filterMap (fun st => st.durationMs)).sum }

/-- The endpoint body (web_ui.py:357-425): 404 on an empty event list,
otherwise group by `system`, build one stage per group, sort and
aggregate. -/
def get_trace_timeline (parse : String → Option ℚ)
    (events : List WebEvent) : TimelineResult :=
  if events.isEmpty then .notFound 404
  else .ok (assembleTimeline parse events)

/-- Projection used to state concrete counterexamples about the stage
list of an endpoint response. -/
def resultStages : TimelineResult → List Stage
  | .notFound _ => []
  | .ok tl => tl.stages

theorem keysInOrder_mem {events : List WebEvent} {k : String} :
    k ∈ keysInOrder events ↔ ∃ e ∈ events, e.system = k := by
  induction events with
  | nil => simp [keysInOrder]
  | cons e es ih =>
    simp only [keysInOrder, List.mem_cons, List.mem_filter, ih]
    constructor
    · rintro (rfl | ⟨⟨e', he', rfl⟩, _⟩)
      · exact ⟨e, Or.inl rfl, rfl⟩
      · exact ⟨e', Or.inr he', rfl⟩
    · rintro ⟨e', rfl | he', rfl⟩
      · exact Or.inl rfl
      · by_cases hk : e'.system = e.system
        · exact Or.inl hk
        · exact Or.inr ⟨⟨e', he', rfl⟩, by simpa using hk⟩

theorem buildStage_events (parse : String → Option ℚ) (s : String)
    (g : List WebEvent) :
    (buildStage parse s g).events = pySortedBy (fun e => e.timestamp) g := rfl

theorem buildStage_startTime (parse : String → Option ℚ) (s : String)
    (g : List WebEvent) :
    (buildStage parse s g).startTime
      = ((pySortedBy (fun e => e.timestamp) g).headD ⟨"", "", ""⟩).timestamp := rfl

theorem buildStage_endTime (parse : String → Option ℚ) (s : String)
    (g : List WebEvent) :
    (buildStage parse s g).endTime
      = ((pySortedBy (fun e => e.timestamp) g).getLastD ⟨"", "", ""⟩).timestamp := rfl

theorem buildStage_durationMs (parse : String → Option ℚ) (s : String)
    (g : List WebEvent) :
    (buildStage parse s g).durationMs
      = match parse (buildStage parse s g).startTime,
          parse (buildStage parse s g).endTime with
        | some a, some b => some (b - a)
        | _, _ => none := rfl

theorem buildStage_status (parse : String → Option ℚ) (s : String)
    (g : List WebEvent) :
    (buildStage parse s g).status
      = (if (pySortedBy (fun e => e.timestamp) g).any
            (fun e => e.severity == "error") then "error"
         else if (pySortedBy (fun e => e.timestamp) g).any
            (fun e => e.severity == "warning") then "warning"
         else "success") := rfl

/-- What the specification asserts, per group, about the stage the loop at
web_ui.py:383-414 appends for that group: events sorted by timestamp
(stably), start/end from the first/last sorted event, duration from the
parsed pair or null, worst-severity status. -/
def StageSpec (parse : String → Option ℚ) (s : String) (g : List WebEvent)
    (st : Stage) : Prop :=
  st.system = s ∧
  st.events.Perm g ∧
  st.events.Pairwise (fun a b => pyStrLe a.timestamp b.timestamp = true) ∧
  (∀ t : String, st.events.filter (fun e => e.timestamp == t)
      = g.filter (fun e => e.timestamp == t)) ∧
  (∃ f rest, st.events = f :: rest ∧ st.startTime = f.timestamp) ∧
  (∃ lastEv, st.events.getLast? = some lastEv ∧ st.endTime = lastEv.timestamp) ∧
  (∀ a b : ℚ, parse st.startTime = some a → parse st.endTime = some b →
    st.durationMs = some (b - a)) ∧
  ((parse st.startTime = none ∨ parse st.endTime = none) → st.durationMs = none) ∧
  st.eventCount = g.length ∧
  (st.status = "error" ↔ ∃ e ∈ g, e.severity = "error") ∧
  (st.status = "warning" ↔
    (¬ ∃ e ∈ g, e.severity = "error") ∧ ∃ e ∈ g, e.severity = "warning") ∧
  (st.status = "success" ↔
    (¬ ∃ e ∈ g, e.severity = "error") ∧ ¬ ∃ e ∈ g, e.severity = "warning")

theorem buildStage_spec (parse : String → Option ℚ) (s : String)
    (g : List WebEvent) (hg : g ≠ []) :
    StageSpec parse s g (buildStage parse s g) := by
  have hperm : (pySortedBy (fun e => e.timestamp) g).Perm g := pySortedBy_perm _ g
  have hne : pySortedBy (fun e => e.timestamp) g ≠ [] := by
    intro h
    apply hg
    have hl := hperm.length_eq
    rw [h] at hl
    exact List.eq_nil_of_length_eq_zero hl.symm
  obtain ⟨f, rest, hfr⟩ := List.exists_cons_of_ne_nil hne
  have hAnyErr : ((pySortedBy (fun e => e.timestamp) g).any
      (fun e => e.severity == "error") = true) ↔ ∃ e ∈ g, e.severity = "error" := by
    rw [List.any_eq_true]
    constructor
    · rintro ⟨e, he, hp⟩; exact ⟨e, hperm.mem_iff.mp he, by simpa using hp⟩
    · rintro ⟨e, he, hp⟩; exact ⟨e, hperm.mem_iff.mpr he, by simpa using hp⟩
  have hAnyWarn : ((pySortedBy (fun e => e.timestamp) g).any
      (fun e => e.severity == "warning") = true) ↔
        ∃ e ∈ g, e.severity = "warning" := by
    rw [List.any_eq_true]
    constructor
    · rintro ⟨e, he, hp⟩; exact ⟨e, hperm.mem_iff.mp he, by simpa using hp⟩
    · rintro ⟨e, he, hp⟩; exact ⟨e, hperm.mem_iff.mpr he, by simpa using hp⟩
  refine ⟨rfl, ?_, ?_, ?_, ?_, ?_, ?_, ?_, ?_, ?_, ?_, ?_⟩
  · rw [buildStage_events]; exact hperm
  · rw [buildStage_events]; exact pySortedBy_sorted _ g
  · intro t
    rw [buildStage_events]
    exact pySortedBy_filter_key (fun e => e.timestamp) g t
      (fun e => e.timestamp == t) (fun x => by simp)
  · refine ⟨f, rest, ?_, ?_⟩
    · rw [buildStage_events]; exact hfr
    · rw [buildStage_startTime, hfr]; rfl
  · refine ⟨(pySortedBy (fun e => e.timestamp) g).getLast hne, ?_, ?_⟩
    · rw [buildStage_events]; exact List.getLast?_eq_getLast _ hne
    · rw [buildStage_endTime, List.getLastD_eq_getLast?,
        List.getLast?_eq_getLast _ hne]
      rfl
  · intro a b ha hb
    rw [buildStage_durationMs, ha, hb]
  · intro h
    rw [buildStage_durationMs]
    rcases h with h | h
    · rw [h]
    · rw [h]
      cases parse (buildStage parse s g).startTime <;> rfl
  · have := hperm.length_eq
    simpa [buildStage] using this
  · rw [buildStage_status]
    by_cases hA : (pySortedBy (fun e => e.timestamp) g).any
        (fun e => e.severity == "error") = true
    · rw [if_pos hA]
      exact iff_of_true rfl (hAnyErr.mp hA)
    · rw [if_neg hA]
      have hno : ¬ ∃ e ∈ g, e.severity = "error" :=
        fun hex => hA (hAnyErr.mpr hex)
      by_cases hB : (pySortedBy (fun e => e.timestamp) g).any
          (fun e => e.severity == "warning") = true
      · rw [if_pos hB]
        exact iff_of_false (by decide) hno
      · rw [if_neg hB]
        exact iff_of_false (by decide) hno
  · rw [buildStage_status]
    by_cases hA : (pySortedBy (fun e => e.timestamp) g).any
        (fun e => e.severity == "error") = true
    · rw [if_pos hA]
      exact iff_of_false (by decide) (fun h => h.1 (hAnyErr.mp hA))
    · rw [if_neg hA]
      have hnoErr : ¬ ∃ e ∈ g, e.severity = "error" :=
        fun hex => hA (hAnyErr.mpr hex)
      by_cases hB : (pySortedBy (fun e => e.timestamp) g).any
          (fun e => e.severity == "warning") = true
      · rw [if_pos hB]
        exact iff_of_true rfl ⟨hnoErr, hAnyWarn.mp hB⟩
      · rw [if_neg hB]
        exact iff_of_false (by decide) (fun h => hB (hAnyWarn.mpr h.2))
  · rw [buildStage_status]
    by_cases hA : (pySortedBy (fun e => e.timestamp) g).any
        (fun e => e.severity == "error") = true
    · rw [if_pos hA]
      exact iff_of_false (by decide) (fun h => h.1 (hAnyErr.mp hA))
    · rw [if_neg hA]
      by_cases hB : (pySortedBy (fun e => e.timestamp) g).any
          (fun e => e.severity == "warning") = true
      · rw [if_pos hB]
        exact iff_of_false (by decide) (fun h => h.2 (hAnyWarn.mp hB))
      · rw [if_neg hB]
        exact iff_of_true rfl
          ⟨fun hex => hA (hAnyErr.mpr hex), fun hw => hB (hAnyWarn.mpr hw)⟩

/-- C1: for every non-empty set of events of one trace, the timeline
builder groups events by their `system` field, sorts each group by
timestamp ascending with ties broken by arrival order (stable sort), and
produces for each group a stage whose startTime/endTime are the
timestamps of the first/last sorted event, whose durationMs is
endTime - startTime in milliseconds when both timestamps parse and null
otherwise, and whose status is error if any event of the group has
severity error, else warning if any has severity warning, else
success. -/
theorem C1_timeline_stage_spec (parse : String → Option ℚ)
    (events : List WebEvent) (hne : events ≠ []) :
    get_trace_timeline parse events
        = TimelineResult.ok (assembleTimeline parse events) ∧
      (assembleTimeline parse events).stages.Perm (stagesFor parse events) ∧
      ∀ s : String, events.filter (fun e => e.system == s) ≠ [] →
        buildStage parse s (events.filter (fun e => e.system == s))
            ∈ (assembleTimeline parse events).stages ∧
        StageSpec parse s (events.filter (fun e => e.system == s))
          (buildStage parse s (events.filter (fun e => e.system == s))) := by
  have hEmpty : ¬ events.isEmpty = true := by
    cases events with
    | nil => exact absurd rfl hne
    | cons a l => simp [List.isEmpty]
  refine ⟨?_, ?_, ?_⟩
  · unfold get_trace_timeline
    rw [if_neg hEmpty]
  · exact pySortedBy_perm _ _
  · intro s hs
    have hmemKey : s ∈ keysInOrder events := by
      apply keysInOrder_mem.mpr
      obtain ⟨e, he⟩ := List.exists_mem_of_ne_nil _ hs
      exact ⟨e, List.mem_of_mem_filter he, by simpa using List.of_mem_filter he⟩
    constructor
    · exact ((pySortedBy_perm _ _).mem_iff).mpr (List.mem_map_of_mem _ hmemKey)
    · exact buildStage_spec parse s _ hs

/-- Concrete timestamp parser used for witnesses and counterexamples: the
restriction of `datetime.fromisoformat` (after the `replace("Z",
"+00:00")`) to the timestamp literals appearing in this file, re-based to
milliseconds after 2024-01-01T00:00:00 (the code only ever uses parsed
timestamps through differences, so the choice of epoch is immaterial).
`fromisoformat` raises ValueError on the string "1bad", hence `none`. -/
def sampleParse : String → Option ℚ := fun s =>
  if s = "2024-01-01T00:00:00" then some 0
  else if s = "2024-01-01T00:00:05" then some 5000
  else if s = "2024-01-01T00:00:10" then some 10000
  else none

def wApi1 : WebEvent := ⟨"api", "2024-01-01T00:00:10", "info"⟩

def wApi2 : WebEvent := ⟨"api", "2024-01-01T00:00:05", "info"⟩

def wDb1 : WebEvent := ⟨"db", "2024-01-01T00:00:05", "error"⟩

theorem C1_timeline_stage_spec_witness :
    ([wApi1, wApi2, wDb1] : List WebEvent) ≠ [] ∧
    (get_trace_timeline sampleParse [wApi1, wApi2, wDb1]
        = TimelineResult.ok (assembleTimeline sampleParse [wApi1, wApi2, wDb1]) ∧
      (assembleTimeline sampleParse [wApi1, wApi2, wDb1]).stages.Perm
        (stagesFor sampleParse [wApi1, wApi2, wDb1]) ∧
      ∀ s : String,
        [wApi1, wApi2, wDb1].filter (fun e => e.system == s) ≠ [] →
        buildStage sampleParse s
            ([wApi1, wApi2, wDb1].filter (fun e => e.system == s))
            ∈ (assembleTimeline sampleParse [wApi1, wApi2, wDb1]).stages ∧
        StageSpec sampleParse s
          ([wApi1, wApi2, wDb1].filter (fun e => e.system == s))
          (buildStage sampleParse s
            ([wApi1, wApi2, wDb1].filter (fun e => e.system == s)))) :=
  ⟨by decide, C1_timeline_stage_spec sampleParse [wApi1, wApi2, wDb1] (by decide)⟩

theorem assembleTimeline_stages (parse : String → Option ℚ)
    (events : List WebEvent) :
    (assembleTimeline parse events).stages
      = pySortedBy (fun st => st.startTime) (stagesFor parse events) := rfl

theorem assembleTimeline_hasErrors (parse : String → Option ℚ)
    (events : List WebEvent) :
    (assembleTimeline parse events).hasErrors
      = (assembleTimeline parse events).stages.any
          (fun st => st.status == "error") := rfl

theorem assembleTimeline_totalDurationMs (parse : String → Option ℚ)
    (events : List WebEvent) :
    (assembleTimeline parse events).totalDurationMs
      = ((assembleTimeline parse events).stages.filterMap
          (fun st => st.durationMs)).sum := rfl

theorem sum_filterMap_option_getD (l : List (Option ℚ)) :
    (l.filterMap id).sum = (l.map (fun o => o.getD 0)).sum := by
  induction l with
  | nil => rfl
  | cons o l ih => cases o <;> simp [List.filterMap_cons, ih]

/-- C2 amended: the assembled stages are sorted ascending by the raw
`start_time` string (Python's code-point string order) with stable tie
order relative to the unsorted per-group stage list; a stage whose start
does not parse sorts by its string value like any other (not necessarily
last); hasErrors is true exactly when some stage's status is error; and
totalDurationMs is the sum of the non-null stage durations (equal to the
sum that treats null as 0). -/
theorem C2_timeline_assembly (parse : String → Option ℚ)
    (events : List WebEvent) (hne : events ≠ []) :
    get_trace_timeline parse events
        = TimelineResult.ok (assembleTimeline parse events) ∧
      (assembleTimeline parse events).stages.Pairwise
        (fun a b => pyStrLe a.startTime b.startTime = true) ∧
      (∀ t : String,
        (assembleTimeline parse events).stages.filter
            (fun st => st.startTime == t)
          = (stagesFor parse events).filter (fun st => st.startTime == t)) ∧
      ((assembleTimeline parse events).hasErrors = true ↔
        ∃ st ∈ (assembleTimeline parse events).stages, st.status = "error") ∧
      (assembleTimeline parse events).totalDurationMs
        = ((assembleTimeline parse events).stages.map
            (fun st => st.durationMs.getD 0)).sum := by
  have hEmpty : ¬ events.isEmpty = true := by
    cases events with
    | nil => exact absurd rfl hne
    | cons a l => simp [List.isEmpty]
  refine ⟨?_, ?_, ?_, ?_, ?_⟩
  · unfold get_trace_timeline
    rw [if_neg hEmpty]
  · rw [assembleTimeline_stages]
    exact pySortedBy_sorted _ _
  · intro t
    rw [assembleTimeline_stages]
    exact pySortedBy_filter_key (fun (st : Stage) => st.startTime)
      (stagesFor parse events) t
      (fun (st : Stage) => st.startTime == t) (fun st => by simp)
  · rw [assembleTimeline_hasErrors, List.any_eq_true]
    simp only [beq_iff_eq]
  · rw [assembleTimeline_totalDurationMs]
    have h := sum_filterMap_option_getD
      ((assembleTimeline parse events).stages.map (fun st => st.durationMs))
    rw [List.filterMap_map, List.map_map] at h
    simpa [Function.comp] using h

theorem C2_timeline_assembly_witness :
    ([wApi1, wApi2, wDb1] : List WebEvent) ≠ [] ∧
    (get_trace_timeline sampleParse [wApi1, wApi2, wDb1]
        = TimelineResult.ok (assembleTimeline sampleParse [wApi1, wApi2, wDb1]) ∧
      (assembleTimeline sampleParse [wApi1, wApi2, wDb1]).stages.Pairwise
        (fun a b => pyStrLe a.startTime b.startTime = true) ∧
      (∀ t : String,
        (assembleTimeline sampleParse [wApi1, wApi2, wDb1]).stages.filter
            (fun st => st.startTime == t)
          = (stagesFor sampleParse [wApi1, wApi2, wDb1]).filter
              (fun st => st.startTime == t)) ∧
      ((assembleTimeline sampleParse [wApi1, wApi2, wDb1]).hasErrors = true ↔
        ∃ st ∈ (assembleTimeline sampleParse [wApi1, wApi2, wDb1]).stages,
          st.status = "error") ∧
      (assembleTimeline sampleParse [wApi1, wApi2, wDb1]).totalDurationMs
        = ((assembleTimeline sampleParse [wApi1, wApi2, wDb1]).stages.map
            (fun st => st.durationMs.getD 0)).sum) :=
  ⟨by decide, C2_timeline_assembly sampleParse [wApi1, wApi2, wDb1] (by decide)⟩

def wAlpha : WebEvent := ⟨"alpha", "2024-01-01T00:00:00", "info"⟩

def wBeta : WebEvent := ⟨"beta", "1bad", "info"⟩

/-- C2 counterexample: with one group whose start parses
("2024-01-01T00:00:00") and one whose start does not ("1bad", on which
`fromisoformat` raises ValueError), the stage with the unparsable start
sorts FIRST, not last — web_ui.py:417 sorts by the raw string, and
"1bad" < "2024-01-01T00:00:00" in string order. -/
theorem C2_counterexample :
    (resultStages (get_trace_timeline sampleParse [wAlpha, wBeta])).map
        (fun st => (st.system, sampleParse st.startTime))
      = [("beta", none), ("alpha", some 0)] := by decide

/-- C9 counterexample: on an empty event list the endpoint raises
HTTPException 404 (web_ui.py:366-367); it does not return the empty
Timeline the claim describes. -/
theorem C9_counterexample :
    get_trace_timeline sampleParse [] = TimelineResult.notFound 404 ∧
    get_trace_timeline sampleParse []
      ≠ TimelineResult.ok ⟨[], 0, false, 0⟩ :=
  ⟨rfl, by decide⟩

/-- C9 amended: given a traceId with an empty event sequence, the
timeline endpoint raises NotFound (HTTP 404) instead of returning an
empty Timeline. -/
theorem C9_empty_events_not_found (parse : String → Option ℚ) :
    get_trace_timeline parse [] = TimelineResult.notFound 404 := rfl

/-! ## Logging handler — `DevPulseHandler.emit` (src/devpulse/logging.py, lines 25-84)

`emit` reads the trace id from the context (`get_trace_id`, which returns
"" when no id is installed — src/traceflow/core.py:61-67), returns at once
when it is empty (logging.py:34-36), and otherwise builds the event
dictionary of logging.py:60-72 and hands it to `send_event`, and to
`save_event` when `enable_db_logging` is set (logging.py:74-80).  The
locals dictionary is the `str()` renderings gathered from the traceback
frames (logging.py:43-54) and the stacktrace is
`traceback.format_exception` (logging.py:57); both are taken here as
given lists of strings. -/

/-- The parts of a Python `logging.LogRecord` that `emit` reads, together
with the collected locals renderings and formatted stacktrace. -/
structure LogRecord where
  levelname : String
  pathname : String
  lineno : Nat
  module : String
  funcName : String
  message : String
  localsPairs : List (String × String)
  stacktrace : List String
deriving DecidableEq

/-- The event dictionary built at logging.py:60-72. -/
structure Event where
  traceId : String
  timestamp : String
  severity : String
  system : String
  file : String
  line : Nat
  source : String
  locals : List (String × String)
  stacktrace : List String
  details : String
  environment : String
deriving DecidableEq

/-- Result of one `emit` call: either the early return at
logging.py:34-36 for a record with no trace id (the rejection the spec
calls MissingTraceId) or the event that is dispatched. -/
inductive EmitResult
  | rejectedMissingTraceId
  | emitted (e : Event)
deriving DecidableEq

/-- The body of `DevPulseHandler.emit` (logging.py:31-72) as a function of
the context's trace id, the current clock reading `now`
(`datetime.utcnow().isoformat() + "Z"`), the configured environment and
the log record. -/
def emit (trace_id now environment : String) (record : LogRecord) :
    EmitResult :=
  if trace_id = "" then .rejectedMissingTraceId
  else .emitted
    { traceId := trace_id
      timestamp := now
      severity := pyLower record.levelname
      system := "backend"
      file := record.pathname
      line := record.lineno
      source := record.module ++ "." ++ record.funcName
      locals := record.localsPairs
      stacktrace := record.stacktrace
      details := record.message
      environment := environment }

/-- Events handed to `send_event` (logging.py:75) by one `emit` call. -/
def emitSendCalls (trace_id now environment : String)
    (record : LogRecord) : List Event :=
  match emit trace_id now environment record with
  | .rejectedMissingTraceId => []
  | .emitted e => [e]

/-- Events handed to `save_event` (logging.py:78-80) by one `emit` call. -/
def emitSaveCalls (trace_id now environment : String) (enableDb : Bool)
    (record : LogRecord) : List Event :=
  match emit trace_id now environment record with
  | .rejectedMissingTraceId => []
  | .emitted e => if enableDb then [e] else []

/-- Projection for stating concrete facts about an emit result. -/
def emittedEvent : EmitResult → Option Event
  | .rejectedMissingTraceId => none
  | .emitted e => some e

/-- Outcome of calling a module-level function of `devpulse.websocket`
that, depending on its input, runs into a name that is not defined at
module scope. -/
inductive PyResult (α : Type)
  | nameError
  | ok (a : α)
deriving DecidableEq

/-- The module-level `broadcast_event` of src/devpulse/websocket.py,
lines 148-179, as a function of the event's trace id, returning the list
of sinks the record is sent to.  An event whose trace id is missing or
empty hits the guard at lines 154-157 and the function returns having
sent nothing.  For any other event the function evaluates `clients` at
line 160 — a name that exists only as a local of
`start_websocket_server` (line 103), not at module scope — and raises
NameError. -/
def broadcast_event (traceId : String) : PyResult (List Nat) :=
  if traceId = "" then .ok []
  else .nameError

/-- C3: a raw event lacking a traceId is rejected by the emit-side
validation (the early return that the spec names MissingTraceId), is
never handed to the websocket queue feeding the Broadcaster, is never
handed to the store, and the Broadcaster's own guard also refuses to
fan out an event without a trace id. -/
theorem C3_missing_trace_id_rejected (now environment : String)
    (record : LogRecord) (enableDb : Bool) :
    emit "" now environment record = EmitResult.rejectedMissingTraceId ∧
    emitSendCalls "" now environment record = [] ∧
    emitSaveCalls "" now environment enableDb record = [] ∧
    broadcast_event "" = PyResult.ok [] := by
  refine ⟨rfl, ?_, ?_, rfl⟩ <;> rfl

/-- A string of n copies of the letter a. -/
def aString (n : Nat) : String := ⟨List.replicate n 'a'⟩

/-- A log record whose collected locals carry one value of the given
size and whose stacktrace is one entry of the same size. -/
def bigRecord (n : Nat) : LogRecord :=
  { levelname := "INFO"
    pathname := "app.py"
    lineno := 1
    module := "app"
    funcName := "run"
    message := "boom"
    localsPairs := [("k", aString n)]
    stacktrace := [aString n] }

theorem aString_length (n : Nat) : (aString n).length = n := by
  simp [aString, String.length]

/-- C7 counterexample: there is no byte budget that the emitted events
respect — `emit` copies every locals rendering (logging.py:51,68) and
every stacktrace entry (logging.py:57,69) into the event unchanged, so
for any claimed budget B a record carrying a value of length B+1 emerges
with length B+1. -/
theorem C7_counterexample :
    ¬ ∃ B : Nat, ∀ (record : LogRecord) (e : Event),
        emit "T" "2024-01-01T00:00:00Z" "dev" record = EmitResult.emitted e →
        (∀ p ∈ e.locals, p.2.length ≤ B) ∧
        (∀ s ∈ e.stacktrace, s.length ≤ B) := by
  rintro ⟨B, h⟩
  obtain ⟨hloc, -⟩ := h (bigRecord (B + 1))
    { traceId := "T"
      timestamp := "2024-01-01T00:00:00Z"
      severity := pyLower "INFO"
      system := "backend"
      file := "app.py"
      line := 1
      source := "app" ++ "." ++ "run"
      locals := [("k", aString (B + 1))]
      stacktrace := [aString (B + 1)]
      details := "boom"
      environment := "dev" } rfl
  have hlen := hloc ("k", aString (B + 1)) (List.mem_singleton.mpr rfl)
  rw [aString_length] at hlen
  omega

/-- C7 amended: `emit` applies no size cap at all — the locals
renderings and the stacktrace entries appear in the emitted event
verbatim, whatever their size. -/
theorem C7_no_truncation (trace_id now environment : String)
    (record : LogRecord) (h : trace_id ≠ "") :
    ∃ e, emit trace_id now environment record = EmitResult.emitted e ∧
      e.locals = record.localsPairs ∧
      e.stacktrace = record.stacktrace := by
  unfold emit
  rw [if_neg h]
  exact ⟨_, rfl, rfl, rfl⟩

theorem C7_no_truncation_witness :
    ("T" : String) ≠ "" ∧
    ∃ e, emit "T" "2024-01-01T00:00:00Z" "dev" (bigRecord 2000)
        = EmitResult.emitted e ∧
      e.locals = (bigRecord 2000).localsPairs ∧
      e.stacktrace = (bigRecord 2000).stacktrace :=
  ⟨by decide,
    C7_no_truncation "T" "2024-01-01T00:00:00Z" "dev" (bigRecord 2000)
      (by decide)⟩

/-- The record of a `logging.critical(...)` call: CPython's logging sets
`levelname = "CRITICAL"`, which is outside the spec's severity enum. -/
def critRecord : LogRecord :=
  { levelname := "CRITICAL"
    pathname := "app.py"
    lineno := 7
    module := "app"
    funcName := "run"
    message := "fatal"
    localsPairs := []
    stacktrace := [] }

/-- C8 counterexample: a record whose level is CRITICAL — not one of
debug/info/warning/error — is emitted with severity "critical"
(logging.py:63 lowercases the level name and performs no enum check), not
coerced to "info", and the Event dictionary built at logging.py:60-72 has
no unknownSeverity key at all. -/
theorem C8_counterexample :
    (emittedEvent (emit "T" "2024-01-01T00:00:00Z" "dev" critRecord)).map
        (fun e => e.severity) = some "critical" ∧
    ("critical" ∈ (["debug", "info", "warning", "error"] : List String)
      ↔ False) ∧
    (emittedEvent (emit "T" "2024-01-01T00:00:00Z" "dev" critRecord)).map
        (fun e => e.severity) ≠ some "info" := by
  refine ⟨by decide, by decide, by decide⟩

/-- C8 amended: `emit` sets the event's severity to the lowercased level
name verbatim — severities outside the enum are neither coerced to info
nor flagged (the event carries no unknownSeverity field), and the event
is still emitted rather than rejected. -/
theorem C8_severity_passthrough (trace_id now environment : String)
    (record : LogRecord) (h : trace_id ≠ "") :
    ∃ e, emit trace_id now environment record = EmitResult.emitted e ∧
      e.severity = pyLower record.levelname := by
  unfold emit
  rw [if_neg h]
  exact ⟨_, rfl, rfl⟩

theorem C8_severity_passthrough_witness :
    ("T" : String) ≠ "" ∧
    ∃ e, emit "T" "2024-01-01T00:00:00Z" "dev" critRecord
        = EmitResult.emitted e ∧
      e.severity = pyLower critRecord.levelname :=
  ⟨by decide,
    C8_severity_passthrough "T" "2024-01-01T00:00:00Z" "dev" critRecord
      (by decide)⟩

/-! ## Event queue and delivery loop (src/devpulse/websocket.py, lines 16-89) -/

/-- An `asyncio.Queue`: `maxsize <= 0` means infinite capacity (asyncio's
documented semantics); `put_nowait` raises QueueFull only when a positive
maxsize is reached. -/
structure AsyncioQueue (α : Type) where
  maxsize : Nat
  items : List α
deriving DecidableEq

/-- `put_nowait`: `none` models a raised QueueFull, `some` the queue with
the item appended (FIFO). -/
def AsyncioQueue.put_nowait {α : Type} (q : AsyncioQueue α) (a : α) :
    Option (AsyncioQueue α) :=
  if 0 < q.maxsize ∧ q.maxsize ≤ q.items.length then none
  else some { q with items := q.items ++ [a] }

/-- The module queue of websocket.py:18: `asyncio.Queue()` — constructed
with no maxsize argument, i.e. maxsize 0, i.e. infinite capacity. -/
def _event_queue : AsyncioQueue Event := { maxsize := 0, items := [] }

/-- The body of `send_event` (websocket.py:74-89) as a queue transformer.
The expression `asyncio.create_task(_event_queue.put_nowait(event))`
evaluates `put_nowait(event)` first (so the enqueue has already happened),
then raises TypeError inside `create_task` because `put_nowait` returns
None and not a coroutine; that TypeError is swallowed by the generic
handler at lines 88-89 and only logged, leaving the queue with the event
appended.  A QueueFull from `put_nowait` would be caught at lines 86-87
and the event dropped. -/
def send_event (q : AsyncioQueue Event) (e : Event) : AsyncioQueue Event :=
  match q.put_nowait e with
  | some qn => qn
  | none => q

/-- A sequence of producer calls to `send_event`. -/
def send_events (q : AsyncioQueue Event) (es : List Event) : AsyncioQueue Event :=
  es.foldl send_event q

theorem send_events_maxsize_zero (items es : List Event) :
    (send_events ⟨0, items⟩ es).items = items ++ es := by
  induction es generalizing items with
  | nil => simp [send_events]
  | cons e es ih =>
    have hstep : send_event ⟨0, items⟩ e = ⟨0, items ++ [e]⟩ := by
      simp [send_event, AsyncioQueue.put_nowait]
    show (send_events (send_event ⟨0, items⟩ e) es).items = items ++ (e :: es)
    rw [hstep, ih (items ++ [e]), List.append_assoc]
    rfl

/-- C4 (code bug): the queue of websocket.py:18 is created with no
maxsize, so it is unbounded — `put_nowait` can never raise QueueFull,
no record offered to it is ever dropped (despite send_event's own
docstring and its QueueFull handler), and after n producer calls the
queue holds all n records, exceeding any claimed fixed capacity. -/
theorem C4_queue_unbounded (es : List Event) :
    _event_queue.maxsize = 0 ∧
    (send_events _event_queue es).items = es ∧
    (send_events _event_queue es).items.length = es.length := by
  refine ⟨rfl, ?_, ?_⟩
  · exact send_events_maxsize_zero [] es
  · show (send_events ⟨0, []⟩ es).items.length = es.length
    rw [send_events_maxsize_zero [] es]
    simp

/-! ## Delivery loop — `process_event_queue` (src/devpulse/websocket.py, lines 43-71)

The loop pops one event per iteration.  `_websocket_client and
_connected` is collapsed into one flag (the branch at line 53 tests their
conjunction, and every write in this file flips them in concert for the
purposes of that test).  The outcomes of the awaited transport operations
are external nondeterminism, supplied per iteration: `sendOk` — whether
the (at most one) `send` of the iteration returns or raises
ConnectionClosed; `connOk` — whether the first `connect_websocket()` call
of the iteration leaves the module connected; `connOk2` — same for the
second connect call reachable after a failed retry send.  (Reconnecting
also spawns one more `process_event_queue` task — websocket.py:37 — so
after the first reconnect several copies of the loop race on the shared
queue; modelled here is a single loop.) -/

structure IterOutcome where
  sendOk : Bool
  connOk : Bool
  connOk2 : Bool
deriving DecidableEq

structure DispatchState where
  connected : Bool
  delivered : List Event
  lost : List Event
deriving DecidableEq

/-- One iteration of the while-loop on the popped event `e`:
if connected, send (websocket.py:53-54) — on ConnectionClosed the handler
at lines 65-68 marks the module disconnected, reconnects, and the loop
continues WITHOUT re-queueing `e`; if not connected, reconnect then retry
sending the same `e` once (lines 56-59) — if that send raises, the same
handler runs and `e` is likewise lost; if the reconnect fails, the record
is only logged as a failed send (lines 60-61) and lost. -/
def process_event_queue_step (st : DispatchState) (e : Event)
    (o : IterOutcome) : DispatchState :=
  if st.connected then
    if o.sendOk then { st with delivered := st.delivered ++ [e] }
    else { connected := o.connOk, delivered := st.delivered,
           lost := st.lost ++ [e] }
  else
    if o.connOk then
      if o.sendOk then
        { connected := true, delivered := st.delivered ++ [e], lost := st.lost }
      else { connected := o.connOk2, delivered := st.delivered,
             lost := st.lost ++ [e] }
    else
      { connected := false, delivered := st.delivered, lost := st.lost ++ [e] }

/-- Run the loop, one queued event and one iteration outcome per step. -/
def process_event_queue_run : DispatchState → List Event → List IterOutcome →
    DispatchState
  | st, [], _ => st
  | st, _ :: _, [] => st
  | st, e :: q, o :: os =>
    process_event_queue_run (process_event_queue_step st e o) q os

theorem step_delivered_shape (st : DispatchState) (e : Event)
    (o : IterOutcome) :
    (process_event_queue_step st e o).delivered = st.delivered ++ [e] ∨
    (process_event_queue_step st e o).delivered = st.delivered := by
  unfold process_event_queue_step
  split_ifs <;> simp

theorem run_delivered_sublist : ∀ (q : List Event) (os : List IterOutcome)
    (st : DispatchState), ∃ d,
      (process_event_queue_run st q os).delivered = st.delivered ++ d ∧
      List.Sublist d q := by
  intro q
  induction q with
  | nil => intro os st; exact ⟨[], by simp [process_event_queue_run], List.nil_sublist _⟩
  | cons e q ih =>
    intro os st
    cases os with
    | nil => exact ⟨[], by simp [process_event_queue_run], List.nil_sublist _⟩
    | cons o os =>
      obtain ⟨d, hd, hsub⟩ := ih os (process_event_queue_step st e o)
      rcases step_delivered_shape st e o with hs | hs
      · refine ⟨e :: d, ?_, List.Sublist.cons₂ e hsub⟩
        show (process_event_queue_run (process_event_queue_step st e o) q os).delivered = _
        rw [hd, hs, List.append_assoc]
        rfl
      · refine ⟨d, ?_, List.Sublist.cons e hsub⟩
        show (process_event_queue_run (process_event_queue_step st e o) q os).delivered = _
        rw [hd, hs]

theorem run_delivered_all : ∀ (q : List Event) (os : List IterOutcome)
    (st : DispatchState), st.connected = true →
    (∀ o ∈ os, o.sendOk = true) → q.length ≤ os.length →
    (process_event_queue_run st q os).delivered = st.delivered ++ q := by
  intro q
  induction q with
  | nil => intro os st _ _ _; simp [process_event_queue_run]
  | cons e q ih =>
    intro os st hconn hsend hlen
    cases os with
    | nil => simp at hlen
    | cons o os =>
      have hso : o.sendOk = true := hsend o (List.mem_cons_self o os)
      have hstep : process_event_queue_step st e o
          = { connected := st.connected, delivered := st.delivered ++ [e],
              lost := st.lost } := by
        unfold process_event_queue_step
        rw [if_pos hconn, if_pos hso]
      show (process_event_queue_run (process_event_queue_step st e o) q os).delivered = _
      rw [hstep, hconn]
      rw [ih os ⟨true, st.delivered ++ [e], st.lost⟩ rfl
        (fun o' ho' => hsend o' (List.mem_cons_of_mem o ho'))
        (by simpa using Nat.le_of_succ_le_succ hlen)]
      simp

/-- C5 amended: records are handed to the transport in FIFO enqueue order
(what is delivered is always an in-order subsequence of the queue, and
with the connection up and every send succeeding, every record is
delivered in exactly enqueue order); a record popped while the loop is
disconnected is retried once after a successful reconnect; but a record
whose send raises ConnectionClosed is dropped — not retried — and so is
a record popped while disconnected when the reconnect fails, so queued
records CAN be skipped. -/
theorem C5_fifo_delivery (q : List Event) (os : List IterOutcome)
    (st : DispatchState) :
    (∃ d, (process_event_queue_run st q os).delivered = st.delivered ++ d ∧
      List.Sublist d q) ∧
    (st.connected = true → (∀ o ∈ os, o.sendOk = true) →
      q.length ≤ os.length →
      (process_event_queue_run st q os).delivered = st.delivered ++ q) ∧
    (∀ (st2 : DispatchState) (e : Event) (o : IterOutcome),
      st2.connected = false → o.connOk = true → o.sendOk = true →
      process_event_queue_step st2 e o
        = { connected := true, delivered := st2.delivered ++ [e],
            lost := st2.lost }) := by
  refine ⟨run_delivered_sublist q os st, run_delivered_all q os st, ?_⟩
  intro st2 e o hc hco hso
  unfold process_event_queue_step
  rw [if_neg (by rw [hc]; exact Bool.false_ne_true), if_pos hco, if_pos hso]

def evA : Event :=
  { traceId := "T1", timestamp := "2024-01-01T00:00:00Z", severity := "info",
    system := "backend", file := "app.py", line := 1, source := "app.run",
    locals := [], stacktrace := [], details := "first", environment := "dev" }

def evB : Event :=
  { traceId := "T1", timestamp := "2024-01-01T00:00:01Z", severity := "info",
    system := "backend", file := "app.py", line := 2, source := "app.run",
    locals := [], stacktrace := [], details := "second", environment := "dev" }

/-- The iteration whose send raises ConnectionClosed and whose reconnect
then succeeds. -/
def oFail : IterOutcome := { sendOk := false, connOk := true, connOk2 := true }

/-- The iteration whose send succeeds. -/
def oOk : IterOutcome := { sendOk := true, connOk := true, connOk2 := true }

/-- C5 counterexample: starting connected with queue [evA, evB], evA's
send raises ConnectionClosed; the handler at websocket.py:65-68
reconnects and the loop continues with the NEXT event — evA is never
retried, evB is delivered, so a queued record is skipped. -/
theorem C5_counterexample :
    (process_event_queue_run ⟨true, [], []⟩ [evA, evB] [oFail, oOk]).delivered
        = [evB] ∧
    (process_event_queue_run ⟨true, [], []⟩ [evA, evB] [oFail, oOk]).lost
        = [evA] := by
  refine ⟨by decide, by decide⟩

theorem C5_fifo_delivery_witness :
    (({ connected := true, delivered := [], lost := [] } :
        DispatchState).connected = true) ∧
    (∀ o ∈ [oOk, oOk], o.sendOk = true) ∧
    ([evA, evB] : List Event).length ≤ ([oOk, oOk] : List IterOutcome).length ∧
    (process_event_queue_run ⟨true, [], []⟩ [evA, evB] [oOk, oOk]).delivered
      = ([] : List Event) ++ [evA, evB] ∧
    (({ connected := false, delivered := [], lost := [] } :
        DispatchState).connected = false) ∧
    oOk.connOk = true ∧ oOk.sendOk = true ∧
    process_event_queue_step ⟨false, [], []⟩ evA oOk
      = { connected := true, delivered := [] ++ [evA], lost := [] } :=
  ⟨rfl, by decide, by decide,
    (C5_fifo_delivery [evA, evB] [oOk, oOk] ⟨true, [], []⟩).2.1 rfl
      (by decide) (by decide),
    rfl, rfl, rfl,
    (C5_fifo_delivery [evA, evB] [oOk, oOk] ⟨true, [], []⟩).2.2
      ⟨false, [], []⟩ evA oOk rfl rfl rfl⟩

/-! ## Broadcaster (src/devpulse/websocket.py, lines 103-179, and
examples/websocket_server.py, lines 17-64)

The fan-out loop of `broadcast_event` appears twice in the repository
with an identical body: in `devpulse/websocket.py`, where the `clients`
table and `unregister` it references are locals of
`start_websocket_server` and the module-level function therefore raises
NameError (modelled above by `broadcast_event`), and in
`examples/websocket_server.py`, where `clients` is a module-level
dictionary and the function works; the working copy is embedded below.
Sinks are identified by numbers; whether a given sink's `send` raises is
supplied by the oracle `fails`; iterating a Python set visits every
element, and every property proved here is independent of the visiting
order, which the embedding fixes as list order. -/

/-- `unregister` (websocket_server.py:28-34, identical at
websocket.py:112-118): remove the sink from the trace id's set and drop
the entry entirely when it empties. -/
def unregister (clients : List (String × List Nat)) (trace_id : String)
    (ws : Nat) : List (String × List Nat) :=
  match clients.lookup trace_id with
  | none => clients
  | some sinks =>
    let sinksLeft := sinks.erase ws
    if sinksLeft.isEmpty then clients.filter (fun p => p.1 != trace_id)
    else clients.map (fun p => if p.1 == trace_id then (p.1, sinksLeft) else p)

structure BroadcastOutcome where
  clients : List (String × List Nat)
  delivered : List Nat
  removed : List Nat
deriving DecidableEq

/-- The working `broadcast_event` of websocket_server.py:37-64: look up
the sinks for the event's trace id, attempt a send to each — a raised
send (ConnectionClosed or any other exception) only adds that sink to
`websockets_to_remove` and the loop continues — then unregister every
failed sink. -/
def broadcast_event_ws_server (fails : Nat → Bool)
    (clients : List (String × List Nat)) (traceId : String) :
    BroadcastOutcome :=
  if traceId = "" then ⟨clients, [], []⟩
  else
    let sinks := (clients.lookup traceId).getD []
    let delivered := sinks.filter (fun ws => !(fails ws))
    let toRemove := sinks.filter (fun ws => fails ws)
    ⟨toRemove.foldl (fun t ws => unregister t traceId ws) clients,
      delivered, toRemove⟩

/-- The sink whose send always raises is sink 1. -/
def failSink1 : Nat → Bool := fun ws => ws == 1

/-- Registration table: sinks 1 (failing) and 2 (healthy) subscribed to
trace T1, sink 3 (healthy) subscribed to trace T2. -/
def clientsT : List (String × List Nat) := [("T1", [1, 2]), ("T2", [3])]

/-- C6 (code bug): publishing a record with a trace id through the
module-level `broadcast_event` of devpulse/websocket.py raises NameError
— `clients` and `unregister` exist only inside `start_websocket_server` —
so nothing is delivered and no sink is unsubscribed; the identical
function body run with the module-level table it was written for (the
copy in examples/websocket_server.py) does behave as the claim states:
the record reaches every registered healthy sink (sink 2 on the same
trace id as the failing sink), the failing sink (1) is unsubscribed
immediately, and a subscription for another trace id (sink 3 on T2) is
untouched. -/
theorem C6_broadcast_isolation :
    broadcast_event "T1" = PyResult.nameError ∧
    broadcast_event_ws_server failSink1 clientsT "T1"
      = ⟨[("T1", [2]), ("T2", [3])], [2], [1]⟩ :=
  ⟨rfl, by decide⟩

/-! ## Store — `save_event` and `get_events` (src/devpulse/database.py) -/

/-- A row of the `events` table (database.py:26-36).  The DateTime column
`timestamp` is modelled as an abstract UTC instant (an integer, e.g.
epoch microseconds); `payload` is `json.dumps(event)`, kept structurally
since `get_events` round-trips it with `json.loads`. -/
structure DbEvent where
  trace_id : String
  system : String
  event_type : String
  payload : Event
  timestamp : Int
deriving DecidableEq

/-- The row constructed by `save_event` (database.py:83-89): the columns
come from the event dictionary (with the `.get` defaults of the code),
except the `timestamp` column, which is `datetime.utcnow()` — the clock
reading `now` AT SAVE TIME (database.py:88) — and not the event's own
`timestamp` field. -/
def save_event (event : Event) (now : Int) : DbEvent :=
  { trace_id := event.traceId
    system := event.system
    event_type := event.severity
    payload := event
    timestamp := now }

/-- `ORDER BY timestamp DESC` (database.py:157).  SQL leaves the order of
equal timestamps unspecified; the embedding fixes one realization
(a stable descending sort). -/
def sqlSortedByTimestampDesc (l : List DbEvent) : List DbEvent :=
  List.insertionSort (fun a b => b.timestamp ≤ a.timestamp) l

/-- One `if arg: query = query.filter(column == arg)` step of
database.py:145-150 — applied only when the argument is truthy (present
and non-empty). -/
def applyStrFilter (key : DbEvent → String) (rows : List DbEvent) :
    Option String → List DbEvent
  | some t => if t = "" then rows else rows.filter (fun r => key r == t)
  | none => rows

/-- The `start_time` filter of database.py:151-152 (datetimes are always
truthy). -/
def applyStartFilter (rows : List DbEvent) : Option Int → List DbEvent
  | some t => rows.filter (fun r => decide (t ≤ r.timestamp))
  | none => rows

/-- The `end_time` filter of database.py:153-154. -/
def applyEndFilter (rows : List DbEvent) : Option Int → List DbEvent
  | some t => rows.filter (fun r => decide (r.timestamp ≤ t))
  | none => rows

/-- `get_events` (database.py:105-177) over the rows of the events table:
the filter chain, `ORDER BY timestamp DESC`, `LIMIT limit OFFSET offset`
(SQL applies OFFSET before LIMIT regardless of the call order at
database.py:157), then `json.loads` of each payload. -/
def get_events (rows : List DbEvent)
    (trace_id system event_type : Option String)
    (start_time end_time : Option Int) (limit offsetN : Nat) : List Event :=
  let q1 := applyStrFilter (fun r => r.trace_id) rows trace_id
  let q2 := applyStrFilter (fun r => r.system) q1 system
  let q3 := applyStrFilter (fun r => r.event_type) q2 event_type
  let q4 := applyStartFilter q3 start_time
  let q5 := applyEndFilter q4 end_time
  (((sqlSortedByTimestampDesc q5).drop offsetN).take limit).map
    (fun r => r.payload)

theorem mem_applyStrFilter {key : DbEvent → String} {rows : List DbEvent}
    {o : Option String} {x : DbEvent} (h : x ∈ applyStrFilter key rows o) :
    x ∈ rows := by
  cases o with
  | none => exact h
  | some t =>
    have h2 : x ∈ (if t = "" then rows
        else rows.filter (fun r => key r == t)) := h
    split_ifs at h2 with ht
    · exact h2
    · exact List.mem_of_mem_filter h2

theorem mem_applyStartFilter {rows : List DbEvent} {o : Option Int}
    {x : DbEvent} (h : x ∈ applyStartFilter rows o) : x ∈ rows := by
  cases o with
  | none => exact h
  | some t => exact List.mem_of_mem_filter h

theorem mem_applyEndFilter {rows : List DbEvent} {o : Option Int}
    {x : DbEvent} (h : x ∈ applyEndFilter rows o) : x ∈ rows := by
  cases o with
  | none => exact h
  | some t => exact List.mem_of_mem_filter h

theorem applyStartFilter_bound {rows : List DbEvent} {t : Int}
    {x : DbEvent} (h : x ∈ applyStartFilter rows (some t)) :
    t ≤ x.timestamp := by
  have h2 : x ∈ rows.filter (fun r => decide (t ≤ r.timestamp)) := h
  have h3 := List.of_mem_filter h2
  simpa using h3

theorem applyEndFilter_bound {rows : List DbEvent} {t : Int}
    {x : DbEvent} (h : x ∈ applyEndFilter rows (some t)) :
    x.timestamp ≤ t := by
  have h2 : x ∈ rows.filter (fun r => decide (r.timestamp ≤ t)) := h
  have h3 := List.of_mem_filter h2
  simpa using h3

theorem sqlSortedByTimestampDesc_pairwise (l : List DbEvent) :
    (sqlSortedByTimestampDesc l).Pairwise
      (fun a b => b.timestamp ≤ a.timestamp) := by
  letI tot : IsTotal DbEvent (fun a b => b.timestamp ≤ a.timestamp) :=
    ⟨fun a b => le_total b.timestamp a.timestamp⟩
  letI tr : IsTrans DbEvent (fun a b => b.timestamp ≤ a.timestamp) :=
    ⟨fun _ _ _ h1 h2 => le_trans h2 h1⟩
  exact List.sorted_insertionSort _ l

theorem sqlSortedByTimestampDesc_perm (l : List DbEvent) :
    (sqlSortedByTimestampDesc l).Perm l :=
  List.perm_insertionSort _ l

/-- C10: the row timestamp written by save_event is the UTC instant of
the save, independent of the event's own `timestamp` field (changing
that field changes only the stored payload), and the rows that
get_events returns are ordered descending by that save-time column and
range-filtered against it. -/
theorem C10_store_uses_save_time (e : Event) (now : Int) (ts : String)
    (rows : List DbEvent) (tid sys ety : Option String)
    (t0 t1 : Option Int) (lim off : Nat) :
    (save_event e now).timestamp = now ∧
    save_event { e with timestamp := ts } now
      = { save_event e now with payload := { e with timestamp := ts } } ∧
    ∃ sel : List DbEvent,
      get_events rows tid sys ety t0 t1 lim off = sel.map (fun r => r.payload) ∧
      sel.Pairwise (fun a b => b.timestamp ≤ a.timestamp) ∧
      ∀ r ∈ sel, r ∈ rows ∧
        (∀ t : Int, t0 = some t → t ≤ r.timestamp) ∧
        (∀ t : Int, t1 = some t → r.timestamp ≤ t) := by
  refine ⟨rfl, rfl, ?_⟩
  refine ⟨((sqlSortedByTimestampDesc
      (applyEndFilter (applyStartFilter
        (applyStrFilter (fun r => r.event_type)
          (applyStrFilter (fun r => r.system)
            (applyStrFilter (fun r => r.trace_id) rows tid) sys) ety)
        t0) t1)).drop off).take lim, rfl, ?_, ?_⟩
  · exact (sqlSortedByTimestampDesc_pairwise _).sublist
      ((List.take_sublist _ _).trans (List.drop_sublist _ _))
  · intro r hr
    have hsorted : r ∈ sqlSortedByTimestampDesc
        (applyEndFilter (applyStartFilter
          (applyStrFilter (fun r => r.event_type)
            (applyStrFilter (fun r => r.system)
              (applyStrFilter (fun r => r.trace_id) rows tid) sys) ety)
          t0) t1) :=
      ((List.take_sublist _ _).trans (List.drop_sublist _ _)).subset hr
    have h5 := (sqlSortedByTimestampDesc_perm _).mem_iff.mp hsorted
    have h4 := mem_applyEndFilter h5
    have h3 := mem_applyStartFilter h4
    refine ⟨mem_applyStrFilter (mem_applyStrFilter (mem_applyStrFilter h3)),
      ?_, ?_⟩
    · rintro t rfl
      exact applyStartFilter_bound h4
    · rintro t rfl
      exact applyEndFilter_bound h5
